import Mathlib

/-!
Verification development for the CropWaterStressSensor firmware
(CropWaterStressSensor_v001.ino).  The definitions below are a shallow
embedding of the sketch: `float` arithmetic is modelled by exact rational
arithmetic (`ℚ`), the append-only CSV files by lists and strings, and the
global mutable buffers by explicit state passing.  Line numbers in the
comments refer to CropWaterStressSensor_v001.ino.
-/

namespace CropWaterStress

/-! ## Index calculator (loop, line 314)

The sketch computes `cwsi = (meanVal - minVal) / (maxVal - minVal)` with no
guard on the denominator.  We embed the fallible float division as an
`Option`: `none` stands for the non-finite IEEE result (NaN or ±∞) that the
C code produces when `maxVal == minVal`. -/

def cwsi_code (maxVal minVal meanVal : ℚ) : Option ℚ :=
  if maxVal - minVal = 0 then none
  else some ((meanVal - minVal) / (maxVal - minVal))

/-! ## Severity classifier (loop, lines 352-364)

The NeoPixel traffic light: `if (cwsi <= 0.33)` green (Low),
`else if (cwsi > 0.33 && cwsi < 0.66)` orange (Medium), `else` red (High). -/

inductive Severity
  | Low
  | Medium
  | High
deriving DecidableEq

def classify (cwsi : ℚ) : Severity :=
  if cwsi ≤ 33 / 100 then Severity.Low
  else if 33 / 100 < cwsi ∧ cwsi < 66 / 100 then Severity.Medium
  else Severity.High

/-! ## Linear regression (simpLinReg, lines 775-797)

Sums x, y, x·y, x² over `i < n`, divides each by `n`, then sets
`lrCoef[0] = (xybar - xbar*ybar) / (xsqbar - xbar*xbar)` (the OLS slope) and
`lrCoef[1] = ybar - lrCoef[0]*xbar` (the intercept).  The pair below is
(lrCoef[0], lrCoef[1]). -/

def simpLinReg (x y : ℕ → ℚ) (n : ℕ) : ℚ × ℚ :=
  let xbar := ((List.range n).map x).sum / (n : ℚ)
  let ybar := ((List.range n).map y).sum / (n : ℚ)
  let xybar := ((List.range n).map (fun i => x i * y i)).sum / (n : ℚ)
  let xsqbar := ((List.range n).map (fun i => x i * x i)).sum / (n : ℚ)
  let c0 := (xybar - xbar * ybar) / (xsqbar - xbar * xbar)
  (c0, ybar - c0 * xbar)

/-! ## Trend computation (loop, lines 454-464)

`float trend_array_x[5] = {1,2,3,4,5};`
`float trend_array_y[5] = {pastArray[10],...,pastArray[14]};`
`simpLinReg(trend_array_x, trend_array_y, lrCoef, 5);  trend = lrCoef[1];`
The history buffer `pastArray` is declared `float pastArray[14]` (line 79),
so index 14 is out of bounds; we model the buffer as a total function
`ℕ → ℚ` so that the out-of-range read is expressible. -/

def trend_array_x : ℕ → ℚ := fun i => (i : ℚ) + 1

def trend_array_y (pastArray : ℕ → ℚ) : ℕ → ℚ := fun i => pastArray (10 + i)

def trend_of (pastArray : ℕ → ℚ) : ℚ :=
  (simpLinReg trend_array_x (trend_array_y pastArray) 5).2

/-- Value rendered on the display: `String(trend*100)+"%"` (lines 469-479). -/
def trendPercent (pastArray : ℕ → ℚ) : ℚ := trend_of pastArray * 100

/-- Declared size of `pastArray` (line 79: `float pastArray[14]`). -/
def pastArraySize : ℕ := 14

/-- Indices of `pastArray` read by the `trend_array_y` initializer (line 457). -/
def trendReadIndices : List ℕ := (List.range 5).map (fun i => 10 + i)

/-- Indices of the last five entries of a `pastArraySize`-slot buffer. -/
def lastFiveIndices : List ℕ := (List.range 5).map (fun i => pastArraySize - 5 + i)

/-! ## Event log file format (setup line 192, loop lines 319-349)

Header `"datetime,Tmax,Tmin,Tmean,cwsi,\n"` is 31 bytes.  Each data row is
`timestamp,cwsi,Tmax,Tmin,Tmean\n` built with sprintf widths 19,4,5,5,5 so a
nominal row is 43 bytes (the comment on line 337 says 44, the true value is
19+1+4+1+5+1+5+1+5+1 = 43, which is the constant the reader uses). -/

def datalogHeader : String := "datetime,Tmax,Tmin,Tmean,cwsi,\n"

structure SampleFields where
  ts : String
  cw : String
  mx : String
  mn : String
  me : String

def sampleRowOf (r : SampleFields) : String :=
  r.ts ++ "," ++ r.cw ++ "," ++ r.mx ++ "," ++ r.mn ++ "," ++ r.me ++ "\n"

/-- Appending rows to the file with `FILE_APPEND` (line 320). -/
def appendRecords (file : String) (rows : List String) : String :=
  rows.foldl (fun f r => f ++ r) file

/-- Record count used by `get_daily_cwsi_mean` (lines 640-644):
`(myFile_data.length() - 31) / 43`. -/
def number_of_logs_file (fileLen : ℕ) : ℕ := (fileLen - 31) / 43

/-! ## Per-sample read-back (get_cwsi_data, lines 725-747)

Row 0 is the header; `substring(20,24)` of the header is `"mean"`, whose
`toFloat()` is 0.  Rows 1..N return the 4-character cwsi field.  For any
other index the C++ function falls off the end without a return value; we
model that degenerate read as 0 (the value `toFloat` gives on junk). -/

def get_cwsi_data (datalog : List ℚ) (i : ℤ) : ℚ :=
  if 1 ≤ i ∧ i ≤ (datalog.length : ℤ) then datalog.getD (i - 1).toNat 0 else 0

/-! ## Daily aggregator (get_daily_cwsi_mean, lines 629-722)

State carried across the call: the daily log (list of committed daily means)
and the global `mean_cwsi`.  The code derives everything from the clock:
`log_cycles_today = rtc.hour*4 + rtc.minute/15`, window 6(am)..18(pm),
`begin_relevant_logs = log_cycles_today - 6*4`,
`start_of_the_day = number_of_logs - log_cycles_today`, and
`number_of_todays_relevant_logs =
   (start_of_the_day + log_cycles_today) - (start_of_the_day + 6*4)`.
A daily record is appended exactly when that count equals `(18-6)*4 = 48`.
The mean divides by the count (in ℚ the 0/0 case at 06:00 yields 0 where the
float code yields NaN; no claim below depends on that value). -/

structure AggState where
  dailylog : List ℚ
  mean_cwsi : ℚ

def get_daily_cwsi_mean (hour minute : ℕ) (datalog : List ℚ) (s : AggState) :
    AggState :=
  let log_cycles_today : ℤ := ((hour * 4 + minute / 15 : ℕ) : ℤ)
  let number_of_logs : ℤ := (datalog.length : ℤ)
  let begin_relevant_logs : ℤ := log_cycles_today - 6 * 4
  let start_of_the_day : ℤ := number_of_logs - log_cycles_today
  if 0 ≤ begin_relevant_logs then
    let n : ℤ := (start_of_the_day + log_cycles_today) - (start_of_the_day + 6 * 4)
    if n ≤ (18 - 6) * 4 then
      let readings : List ℚ :=
        (List.range n.toNat).map
          (fun k => get_cwsi_data datalog (start_of_the_day + 6 * 4 + (k : ℤ)))
      let mean : ℚ := readings.sum / (n : ℚ)
      if n = (18 - 6) * 4 then ⟨s.dailylog ++ [mean], mean⟩
      else ⟨s.dailylog, mean⟩
    else s
  else s

/-! ## Daily log file format and history extraction (loop, lines 398-443)

The daily log header is written with `file.println("date,mean_cwsi")`
(line 206); Arduino's `println` appends `"\r\n"`, so the header on disk is
`"date,mean_cwsi\r\n"` = 16 bytes.  Each committed row `YYYY.MM.DD,x.xx\n`
(sprintf widths 10 and 4 followed by `file.print("\n")`, lines 703-714) is
16 bytes.  The loop computes `number_of_daily_logs =
myFile_data.length() / 15` (`length_row_2 = 15`, no header subtraction), so
for N committed rows the count is `(16 + 16*N) / 15 = N + 1 + (N+1)/15`:
one too many for N < 14 and jumping by two at N = 14, 29, ....

The padding loop (lines 423-431) runs `missing_values + 1` times but its
body `pastArray[daily_count];` is an expression statement that writes
nothing; only `daily_count` advances.  The read loop then stores rows
`read_begin .. number_of_daily_logs-1` at successive positions. -/

def dailyHeader : String := "date,mean_cwsi\r\n"

def dailyRow (date mean : String) : String := date ++ "," ++ mean ++ "\n"

/-- Well-formed dailylog.csv byte length for N committed records: the
16-byte `println` header plus 16 bytes per row. -/
def dailyFileLen (n : ℕ) : ℕ := 16 + 16 * n

/-- Count computed by the loop (lines 404-408): file length divided by 15. -/
def number_of_daily_logs (fileLen : ℕ) : ℕ := fileLen / 15

/-- Per-day read-back (get_daily_cwsi_data, lines 750-772): row 0 is the
header line `"date,mean_cwsi\r"` (the `'\n'` is discarded by
`readStringUntil`), whose `substring(11,15)` is `"wsi\r"` and parses to 0;
rows beyond the data fall off the end of the C++ function and are modelled
as 0. -/
def get_daily_cwsi_data_model (ms : List ℚ) (i : ℕ) : ℚ :=
  if i = 0 then 0 else ms.getD (i - 1) 0

/-- Functional update of the history buffer. -/
def writeAt (f : ℕ → ℚ) (j : ℕ) (v : ℚ) : ℕ → ℚ :=
  fun i => if i = j then v else f i

/-- Value of `read_begin` (lines 414-420). -/
def read_begin (d : ℕ) : ℕ := if 14 ≤ d then d - 14 else 0

/-- Value of `daily_count` after the (no-op) padding loop, lines 422-431:
`missing_values + 1 = 14 - d + 1` iterations when `d < 14`, otherwise 0. -/
def pad_count (d : ℕ) : ℕ := if d < 14 then 15 - d else 0

/-- The read loop (lines 433-443): for `k` from 0, store row
`read_begin + k` at buffer position `pad_count + k`. -/
def extractPast (d : ℕ) (v : ℕ → ℚ) (past : ℕ → ℚ) : ℕ → ℚ :=
  (List.range (d - read_begin d)).foldl
    (fun p k => writeAt p (pad_count d + k) (v (read_begin d + k))) past

/-- History-window extraction for a well-formed daily log holding the mean
values `ms`, starting from the previous contents `past` of `pastArray`. -/
def extractor (ms : List ℚ) (past : ℕ → ℚ) : ℕ → ℚ :=
  extractPast (number_of_daily_logs (dailyFileLen ms.length))
    (get_daily_cwsi_data_model ms) past

/-! ## Startup (setup, lines 94-217) and the Arduino execution model

The camera check halts with `while(1)` (line 113).  `!SD.begin()` and
`cardType == CARD_NONE` merely `return` from setup (lines 148-159), as do
the two existing-file checks (lines 184-201); after setup returns, the
Arduino runtime calls `loop()` forever, so only the `while(1)` path keeps
the sampling loop from running. -/

inductive SetupResult
  | halted
  | earlyReturn
  | completed
deriving DecidableEq

def setup_model (mlxConnected sdBeginOk cardPresent datalogExists dailylogExists :
    Bool) : SetupResult :=
  if !mlxConnected then SetupResult.halted
  else if !sdBeginOk then SetupResult.earlyReturn
  else if !cardPresent then SetupResult.earlyReturn
  else if datalogExists then SetupResult.earlyReturn
  else if dailylogExists then SetupResult.earlyReturn
  else SetupResult.completed

def entersLoop : SetupResult → Bool
  | SetupResult.halted => false
  | SetupResult.earlyReturn => true
  | SetupResult.completed => true

/-! ## One sampling cycle (loop, lines 220-527)

`MLX90640_GetFrameData` may return a negative status (lines 273-279); the
code only prints `"GetFrame Error"` and delays 2000 ms, then falls through
and processes whatever is in the frame buffer.  The cycle then folds
max/min/sum over the 768 pixel array from the reset values 0 / 999 / 0
(lines 298-304, 517-519), computes the index, appends one row to the event
log (lines 319-349), redraws the display, and finally calls the daily
aggregator on the grown log (line 523).  `frameStatus` is a parameter of
the model precisely because the code never branches on it after printing. -/

structure DeviceState where
  datalog : List ℚ
  dailylog : List ℚ
  mean_cwsi : ℚ
  displayed_cwsi : ℚ

def loop_cycle (frameStatus : ℤ) (frame : List ℚ) (hour minute : ℕ)
    (s : DeviceState) : DeviceState :=
  let maxVal := frame.foldl (fun a t => max t a) 0
  let minVal := frame.foldl (fun a t => min t a) 999
  let meanVal := frame.sum / 768
  let cwsi := (meanVal - minVal) / (maxVal - minVal)
  let datalog2 := s.datalog ++ [cwsi]
  let agg := get_daily_cwsi_mean hour minute datalog2 ⟨s.dailylog, s.mean_cwsi⟩
  ⟨datalog2, agg.dailylog, agg.mean_cwsi, cwsi⟩

/-! ## Helper lemmas -/

/-- Unfolding lemma for `writeAt` at a point. -/
theorem writeAt_apply (f : ℕ → ℚ) (j : ℕ) (v : ℚ) (i : ℕ) :
    writeAt f j v i = if i = j then v else f i := rfl

/-- Pointwise description of a block of `writeAt` updates produced by a
`foldl` over `List.range n`: position `i` holds the written value when it
lies in the written block, and the previous contents otherwise. -/
theorem foldl_writeAt_apply (v : ℕ → ℚ) (dc rb n : ℕ) (p : ℕ → ℚ) (i : ℕ) :
    (List.range n).foldl (fun acc k => writeAt acc (dc + k) (v (rb + k))) p i
      = if dc ≤ i ∧ i < dc + n then v (rb + (i - dc)) else p i := by
  induction n with
  | zero =>
      rw [List.range_zero, List.foldl_nil, if_neg]
      omega
  | succ m ih =>
      rw [List.range_succ, List.foldl_append, List.foldl_cons, List.foldl_nil]
      show writeAt _ (dc + m) (v (rb + m)) i = _
      rw [writeAt_apply, ih]
      by_cases h1 : i = dc + m
      · have h2 : dc ≤ i ∧ i < dc + (m + 1) := by omega
        have h3 : rb + (i - dc) = rb + m := by omega
        simp [h1, h2, h3]
      · rw [if_neg h1]
        by_cases h2 : dc ≤ i ∧ i < dc + m
        · have h3 : dc ≤ i ∧ i < dc + (m + 1) := by omega
          rw [if_pos h2, if_pos h3]
        · have h3 : ¬(dc ≤ i ∧ i < dc + (m + 1)) := by omega
          rw [if_neg h2, if_neg h3]

/-- Pointwise description of `extractPast`. -/
theorem extractPast_apply (d : ℕ) (v p : ℕ → ℚ) (i : ℕ) :
    extractPast d v p i
      = if pad_count d ≤ i ∧ i < pad_count d + (d - read_begin d)
        then v (read_begin d + (i - pad_count d)) else p i :=
  foldl_writeAt_apply v (pad_count d) (read_begin d) (d - read_begin d) p i

/-- Length of the event-log file after appending fixed-width rows. -/
theorem appendRecords_length (rows : List String) :
    ∀ file : String, (∀ r ∈ rows, r.length = 43) →
      (appendRecords file rows).length = file.length + 43 * rows.length := by
  induction rows with
  | nil => intro file _; simp [appendRecords]
  | cons r rest ih =>
      intro file h
      have hr : r.length = 43 := h r (List.mem_cons_self r rest)
      have hrest : ∀ q ∈ rest, q.length = 43 :=
        fun q hq => h q (List.mem_cons_of_mem r hq)
      show (appendRecords (file ++ r) rest).length = _
      rw [ih (file ++ r) hrest, String.length_append, hr, List.length_cons]
      ring

/-- A sample row built from fields of the sprintf widths is 43 bytes. -/
theorem sampleRowOf_length (r : SampleFields) (hts : r.ts.length = 19)
    (hcw : r.cw.length = 4) (hmx : r.mx.length = 5) (hmn : r.mn.length = 5)
    (hme : r.me.length = 5) : (sampleRowOf r).length = 43 := by
  simp [sampleRowOf, String.length_append, hts, hcw, hmx, hmn, hme]
  decide

/-- The event log grows by exactly one row in every cycle, whatever the
acquisition status, the frame contents and the clock. -/
theorem loop_cycle_datalog_length (frameStatus : ℤ) (frame : List ℚ)
    (hour minute : ℕ) (s : DeviceState) :
    (loop_cycle frameStatus frame hour minute s).datalog.length
      = s.datalog.length + 1 := by
  have h : (loop_cycle frameStatus frame hour minute s).datalog
      = s.datalog ++ [(frame.sum / 768 - frame.foldl (fun a t => min t a) 999)
          / (frame.foldl (fun a t => max t a) 0
              - frame.foldl (fun a t => min t a) 999)] := rfl
  rw [h, List.length_append, List.length_singleton]

/-- Growth of the daily log in one aggregator call: a record is appended
exactly when the clock-derived count `hour*4 + minute/15` equals 72. -/
theorem dailylog_length_after (hour minute : ℕ) (datalog : List ℚ)
    (s : AggState) :
    (get_daily_cwsi_mean hour minute datalog s).dailylog.length
      = s.dailylog.length + (if hour * 4 + minute / 15 = 72 then 1 else 0) := by
  simp only [get_daily_cwsi_mean]
  split_ifs with h1 h2 h3 h4 <;>
    simp_all [List.length_append] <;> omega

/-! ## Claim theorems -/

/-- C1: the value the sketch reports as the trend is `lrCoef[1]`, which
`simpLinReg` fills with the OLS intercept, not the slope (`lrCoef[0]`).  On
the spec's ramp y = 0.2..0.6 slope and intercept coincide at 0.1, hiding the
bug; on the flat window y = 0.5,...,0.5 the slope is 0 but the code reports
0.5 and renders 50 percent. -/
theorem C1_trend_reports_intercept :
    (simpLinReg trend_array_x (fun i => ((2 + i : ℕ) : ℚ) / 10) 5).1 = 1 / 10
    ∧ (simpLinReg trend_array_x (fun i => ((2 + i : ℕ) : ℚ) / 10) 5).2 = 1 / 10
    ∧ trend_of (fun _ => 1 / 2) = 1 / 2
    ∧ (simpLinReg trend_array_x (trend_array_y (fun _ => 1 / 2)) 5).1 = 0
    ∧ trendPercent (fun _ => 1 / 2) = 50 := by
  refine ⟨?_, ?_, ?_, ?_, ?_⟩ <;>
    norm_num [trendPercent, trend_of, simpLinReg, trend_array_x, trend_array_y,
      List.range_succ, List.range_zero]

/-- C2 counterexample: at Tmax = Tmin = Tmean = 20 the index computation is
a division by zero; the result is the non-finite float marker `none`, not a
finite sentinel value. -/
theorem C2_no_sentinel_at_equal_temps : cwsi_code 20 20 20 = none := by
  simp [cwsi_code]

/-- C2 (amended): for Tmax strictly above Tmin the index calculator returns
exactly (Tmean - Tmin) / (Tmax - Tmin), a finite rational. -/
theorem C2_index_formula (maxVal minVal meanVal : ℚ) (h : minVal < maxVal) :
    cwsi_code maxVal minVal meanVal
      = some ((meanVal - minVal) / (maxVal - minVal)) := by
  have hne : ¬(maxVal - minVal = 0) := by
    intro hc
    have heq : maxVal = minVal := sub_eq_zero.mp hc
    linarith
  simp [cwsi_code, hne]

/-- Witness for C2_index_formula at Tmax = 30, Tmin = 20, Tmean = 25. -/
theorem C2_index_formula_witness :
    (20 : ℚ) < 30 ∧ cwsi_code 30 20 25 = some (1 / 2) := by
  constructor
  · norm_num
  · rw [C2_index_formula 30 20 25 (by norm_num)]
    norm_num

/-- C5: the trend estimator's y-vector initializer reads `pastArray` at
indices 10..14; index 14 lies outside the declared 14-slot buffer (valid
indices 0..13), and the indices read are not the last five entries
(9..13) of the window. -/
theorem C5_trend_reads_out_of_bounds :
    trendReadIndices = [10, 11, 12, 13, 14]
    ∧ (List.range 5).map (trend_array_y (fun i => (i : ℚ))) = [10, 11, 12, 13, 14]
    ∧ ¬(∀ j ∈ trendReadIndices, j < pastArraySize)
    ∧ trendReadIndices ≠ lastFiveIndices := by
  refine ⟨by decide, ?_, by decide, by decide⟩
  simp [trend_array_y, List.range_succ, List.range_zero]

/-- C7 counterexample: with the camera detected but the SD mount failing,
setup merely returns early and the Arduino runtime still enters the
sampling loop. -/
theorem C7_loop_runs_after_sd_failure :
    setup_model true false true false false = SetupResult.earlyReturn
    ∧ entersLoop (setup_model true false true false false) = true :=
  ⟨rfl, rfl⟩

/-- C7 (amended): only a missing camera halts the process; an unavailable
SD card (failed mount, regardless of the remaining probes) produces an
early return from setup after which the sampling loop still runs. -/
theorem C7_setup_behavior (card dlog1 dlog2 sd : Bool) :
    setup_model true false card dlog1 dlog2 = SetupResult.earlyReturn
    ∧ entersLoop (setup_model true false card dlog1 dlog2) = true
    ∧ setup_model false sd card dlog1 dlog2 = SetupResult.halted
    ∧ entersLoop (setup_model false sd card dlog1 dlog2) = false :=
  ⟨rfl, rfl, rfl, rfl⟩

/-- C9: the classifier maps index ≤ 0.33 to Low, 0.33 < index < 0.66 to
Medium, and 0.66 ≤ index to High, exactly as documented. -/
theorem C9_classifier_thresholds (x : ℚ) :
    (x ≤ 33 / 100 → classify x = Severity.Low)
    ∧ (33 / 100 < x → x < 66 / 100 → classify x = Severity.Medium)
    ∧ (66 / 100 ≤ x → classify x = Severity.High) := by
  refine ⟨fun h1 => ?_, fun h2 h3 => ?_, fun h4 => ?_⟩
  · simp [classify, h1]
  · have h1 : ¬x ≤ 33 / 100 := not_le.mpr h2
    simp [classify, h1, h2, h3]
  · have h1 : ¬x ≤ 33 / 100 := by
      rw [not_le]
      linarith
    have h2 : ¬(33 / 100 < x ∧ x < 66 / 100) := by
      rintro ⟨-, hlt⟩
      linarith
    simp [classify, h1, h2]

/-- Witness for C9_classifier_thresholds at the boundary inputs 0.33,
0.34 and 0.66. -/
theorem C9_classifier_thresholds_witness :
    ((33 : ℚ) / 100 ≤ 33 / 100 ∧ classify (33 / 100) = Severity.Low)
    ∧ ((33 : ℚ) / 100 < 34 / 100 ∧ (34 : ℚ) / 100 < 66 / 100
        ∧ classify (34 / 100) = Severity.Medium)
    ∧ ((66 : ℚ) / 100 ≤ 66 / 100 ∧ classify (66 / 100) = Severity.High) :=
  ⟨⟨by norm_num, (C9_classifier_thresholds (33 / 100)).1 (by norm_num)⟩,
   ⟨by norm_num, by norm_num,
     (C9_classifier_thresholds (34 / 100)).2.1 (by norm_num) (by norm_num)⟩,
   ⟨by norm_num, (C9_classifier_thresholds (66 / 100)).2.2 (by norm_num)⟩⟩

/-- C3 counterexample: with the clock at 18:00 and an event log holding only
10 rows in total (device powered on mid-day), the aggregator still appends a
DailyRecord, although fewer than 48 samples were observed in the window. -/
theorem C3_commit_despite_partial_coverage :
    (get_daily_cwsi_mean 18 0 (List.replicate 10 (1 / 2)) ⟨[], 0⟩).dailylog.length = 1
    ∧ (List.replicate 10 ((1 : ℚ) / 2)).length < 48 := by
  constructor
  · rw [dailylog_length_after]
    norm_num
  · simp

/-- C3 (amended): a DailyRecord is appended if and only if the clock-derived
count `hour*4 + minute/15` equals 72, i.e. the cycle runs with the clock in
18:00-18:14; the decision is independent of how many samples were actually
logged, and any other cycle leaves the daily log unchanged (at most updating
the in-memory running mean). -/
theorem C3_commit_iff_clock_72 (hour minute : ℕ) (datalog : List ℚ)
    (s : AggState) :
    (get_daily_cwsi_mean hour minute datalog s).dailylog.length
      = s.dailylog.length + (if hour * 4 + minute / 15 = 72 then 1 else 0) :=
  dailylog_length_after hour minute datalog s

/-- C6: appending N sample rows whose five fields have the sprintf widths
19, 4, 5, 5 and 5 to a datalog holding only the 31-byte header makes the
byte-length record count `(length - 31) / 43` return exactly N. -/
theorem C6_record_count_exact (recs : List SampleFields)
    (h : ∀ r ∈ recs, r.ts.length = 19 ∧ r.cw.length = 4 ∧ r.mx.length = 5
          ∧ r.mn.length = 5 ∧ r.me.length = 5) :
    number_of_logs_file
        (appendRecords datalogHeader (recs.map sampleRowOf)).length
      = recs.length := by
  have hrows : ∀ row ∈ recs.map sampleRowOf, row.length = 43 := by
    intro row hrow
    rcases List.mem_map.mp hrow with ⟨r, hr, hrfl⟩
    rcases h r hr with ⟨h1, h2, h3, h4, h5⟩
    rw [← hrfl]
    exact sampleRowOf_length r h1 h2 h3 h4 h5
  rw [appendRecords_length (recs.map sampleRowOf) datalogHeader hrows]
  have hhead : datalogHeader.length = 31 := by decide
  rw [hhead, List.length_map]
  unfold number_of_logs_file
  omega

/-- Witness for C6_record_count_exact with one concrete nominal record. -/
theorem C6_record_count_exact_witness :
    (∀ r ∈ [SampleFields.mk ("2022.08.31-17:39:30") ("0.45") ("25.31")
        ("20.15") ("22.73")],
      r.ts.length = 19 ∧ r.cw.length = 4 ∧ r.mx.length = 5
        ∧ r.mn.length = 5 ∧ r.me.length = 5)
    ∧ number_of_logs_file
        (appendRecords datalogHeader
          ([SampleFields.mk ("2022.08.31-17:39:30") ("0.45") ("25.31")
              ("20.15") ("22.73")].map sampleRowOf)).length = 1 :=
  ⟨by decide,
   C6_record_count_exact
     [SampleFields.mk ("2022.08.31-17:39:30") ("0.45") ("25.31") ("20.15")
        ("22.73")] (by decide)⟩

/-- C8 counterexample: a cycle whose frame acquisition reports failure
(status -1) still appends a row to the event log. -/
theorem C8_record_appended_on_failed_acquisition :
    (loop_cycle (-1) (List.replicate 768 20) 5 0 ⟨[], [], 0, 0⟩).datalog.length
      = 1 := by
  rw [loop_cycle_datalog_length]
  rfl

/-- C8 (amended): the cycle's behaviour does not depend on the acquisition
status at all: after the error print and delay, the stale frame buffer is
processed identically to a successful cycle, one row is appended to the
event log, the aggregator runs and the displayed value is recomputed. -/
theorem C8_cycle_ignores_frame_status (st1 st2 : ℤ) (frame : List ℚ)
    (hour minute : ℕ) (s : DeviceState) :
    loop_cycle st1 frame hour minute s = loop_cycle st2 frame hour minute s
    ∧ (loop_cycle st1 frame hour minute s).datalog.length
        = s.datalog.length + 1 :=
  ⟨rfl, loop_cycle_datalog_length st1 frame hour minute s⟩

/-- C4 counterexample: with two committed daily means 1/4 then 3/4 and a
zeroed buffer, the claim puts the most recent value 3/4 into slot 13; the
code instead leaves 1/4 there (the newest value is written out of bounds at
index 14 and lost from the window). -/
theorem C4_newest_record_missing :
    extractor [1 / 4, 3 / 4] (fun _ => 0) 13 = 1 / 4
    ∧ ((1 : ℚ) / 4) ≠ 3 / 4 := by
  constructor
  · norm_num [extractor, extractPast, read_begin, pad_count,
      number_of_daily_logs, dailyFileLen, writeAt, get_daily_cwsi_data_model,
      List.range_succ, List.foldl_append]
  · norm_num

/-- C4 (amended): for a daily log of N committed records the extractor's
record count is `(16 + 16*N)/15` (the 16-byte header and 16-byte rows are
divided by 15 and the header is not subtracted, so the count is N+1 for
N < 14 and N+1+(N+1)/15 in general).  When N < 13 the window slot `i` keeps
its previous contents for `i < 14-N` (no sentinel is written by the padding
loop), holds the header-parsed value 0 at `i = 14-N`, and holds record
`i+N-15+1` for larger `i`, so slot 13 carries the second-newest record
while the newest lands outside the buffer; when N ≥ 13 the slots hold rows
`count-14+i` of the file, 0 standing for the header row and for reads past
the end of the file (e.g. at N = 14 the count is 16, the newest record sits
at slot 12 and slot 13 holds a past-end 0). -/
theorem C4_extractor_characterization (ms : List ℚ) (past : ℕ → ℚ) (i : ℕ)
    (hi : i < 14) :
    extractor ms past i =
      if ms.length < 13 then
        (if i < 14 - ms.length then past i
         else if i = 14 - ms.length then 0
         else ms.getD (i + ms.length - 15) 0)
      else
        (if number_of_daily_logs (dailyFileLen ms.length) - 14 + i = 0 then 0
         else ms.getD
           (number_of_daily_logs (dailyFileLen ms.length) - 14 + i - 1) 0) := by
  unfold extractor
  rw [extractPast_apply]
  by_cases hN : ms.length < 13
  · have hD : number_of_daily_logs (dailyFileLen ms.length) = ms.length + 1 := by
      unfold number_of_daily_logs dailyFileLen
      omega
    have hpad : pad_count (ms.length + 1) = 14 - ms.length := by
      unfold pad_count
      rw [if_pos (by omega)]
      omega
    have hrb : read_begin (ms.length + 1) = 0 := by
      unfold read_begin
      rw [if_neg (by omega)]
    rw [hD, hpad, hrb, if_pos hN]
    rcases Nat.lt_trichotomy i (14 - ms.length) with hlt | heq | hgt
    · rw [if_neg (by omega), if_pos hlt]
    · rw [if_pos (by omega), if_neg (by omega), if_pos heq]
      have h2 : 0 + (i - (14 - ms.length)) = 0 := by omega
      rw [h2]
      rfl
    · rw [if_pos (by omega), if_neg (by omega), if_neg (by omega)]
      unfold get_daily_cwsi_data_model
      rw [if_neg (by omega)]
      congr 1
      omega
  · have h14 : 14 ≤ number_of_daily_logs (dailyFileLen ms.length) := by
      unfold number_of_daily_logs dailyFileLen
      omega
    have hpad : pad_count (number_of_daily_logs (dailyFileLen ms.length)) = 0 := by
      unfold pad_count
      rw [if_neg (by omega)]
    have hrb : read_begin (number_of_daily_logs (dailyFileLen ms.length))
        = number_of_daily_logs (dailyFileLen ms.length) - 14 := by
      unfold read_begin
      rw [if_pos h14]
    rw [hpad, hrb, if_neg hN, if_pos (by omega)]
    unfold get_daily_cwsi_data_model
    rw [Nat.sub_zero]

/-- Witness for C4_extractor_characterization at the counterexample input:
slot 13 of the window over the daily log 1/4, 3/4 holds 1/4. -/
theorem C4_extractor_characterization_witness :
    13 < 14 ∧ extractor [(1 : ℚ) / 4, 3 / 4] (fun _ => 0) 13 = 1 / 4 := by
  refine ⟨by norm_num, ?_⟩
  rw [C4_extractor_characterization [(1 : ℚ) / 4, 3 / 4] (fun _ => 0) 13
    (by norm_num)]
  norm_num [List.getD]

/-- C10: history-window extraction is idempotent: running the extractor a
second time on an unchanged daily log leaves the buffer exactly as the first
run produced it. -/
theorem C10_extractor_idempotent (ms : List ℚ) (past : ℕ → ℚ) :
    extractor ms (extractor ms past) = extractor ms past := by
  funext i
  unfold extractor
  simp only [extractPast_apply]
  split_ifs <;> rfl

end CropWaterStress
